import Mathlib

/-!
Shallow embedding of the cash-dispensing terminal in `src/driver.ts`
(a TypeScript ATM: PIN login, withdrawal amounts, a depleting inventory
of 20/10/5 pound notes), together with theorems settling the stated
properties of its withdrawal and note-allocation engine.

Conventions of the embedding:
* the mutable globals of the script (`pin`, `toWithdraw`, `balance`,
  `loginScreen`, `userAmount`, `initialBalance`, `availableNotes`,
  `userNotes`, `messageTimerOn`) are gathered into an `ATMState` record,
  and every function that mutates them becomes a function
  `ATMState → ATMState` (possibly paired with the message it displays);
* JavaScript numbers holding note counts and requested amounts are
  modelled as `Nat` (they are non-negative integers at every call site),
  the account balance as `Int` (it may go negative into overdraft);
* the one floating-point quantity, the per-denomination soft cap
  `amount / totalNotes` in `getDenominationsNeeded`, is modelled as an
  exact rational.  The cap is only ever compared against an integer
  note count via `notesNeeded[i] < noteLimits[i]`; with `amount < 10^6`
  and `totalNotes ≤ 26` the float and the exact rational sit strictly
  on the same side of every integer, so the comparison results agree;
* `parseInt` applied to the amount buffer is modelled by `jsParseInt`:
  the longest leading run of decimal digits, `none` when there is no
  leading digit (JavaScript `NaN`).  `NaN <= x` is false in JavaScript,
  which the embedding reproduces by branching on `none` directly where
  the source compares the parsed amount;
* `displayTimedMessage msg dflt` sets `messageTimerOn` (it stays set
  until the timeout callback, modelled as the `Event.tick` event, clears
  it) and the message argument is surfaced as the `Signal` emitted by
  the transition, whether or not a previous message still suppresses
  its actual display.
-/

/-- `interface Notes`: a bunch of pound notes, per denomination.
Also the shape of `availableNotes`, `userNotes` and of the bundle
returned by `getDenominationsNeeded`. -/
structure Notes where
  five : Nat
  ten : Nat
  twenty : Nat
deriving DecidableEq, Repr

/-- `const overdraftLimit: number = 100`. -/
def overdraftLimit : Int := 100

/-- The mutable globals of `driver.ts`, gathered into one record. -/
structure ATMState where
  messageTimerOn : Bool
  pin : String
  toWithdraw : String
  balance : Int
  loginScreen : Bool
  userAmount : Nat
  initialBalance : Int
  availableNotes : Notes
  userNotes : Notes
deriving DecidableEq, Repr

/-- The initial values of the globals: `pin = ""`, `toWithdraw = ""`,
`balance = 0`, `loginScreen = true`, `userAmount = 0`,
`availableNotes = {five: 4, ten: 15, twenty: 7}`,
`userNotes = {five: 0, ten: 0, twenty: 0}`. -/
def initState : ATMState :=
  { messageTimerOn := false
    pin := ""
    toWithdraw := ""
    balance := 0
    loginScreen := true
    userAmount := 0
    initialBalance := 0
    availableNotes := { five := 4, ten := 15, twenty := 7 }
    userNotes := { five := 0, ten := 0, twenty := 0 } }

/-- `const trueBalance = () => balance + overdraftLimit`. -/
def trueBalance (s : ATMState) : Int := s.balance + overdraftLimit

/-- `calculateTotalRemainingCash()`:
`(availableNotes.five * 5) + (availableNotes.ten * 10) + (availableNotes.twenty * 20)`,
stated over an arbitrary `Notes` value so it can also price a bundle. -/
def calculateTotalRemainingCash (n : Notes) : Nat :=
  n.five * 5 + n.ten * 10 + n.twenty * 20

/-- `isATMEmpty()`: `calculateTotalRemainingCash() == 0`. -/
def isATMEmpty (n : Notes) : Prop := calculateTotalRemainingCash n = 0

/-- `haveEnoughCash(to_withdraw)`: `to_withdraw <= calculateTotalRemainingCash()`. -/
def haveEnoughCash (to_withdraw : Nat) (n : Notes) : Prop :=
  to_withdraw ≤ calculateTotalRemainingCash n

instance (t : Nat) (n : Notes) : Decidable (haveEnoughCash t n) :=
  Nat.decLe t (calculateTotalRemainingCash n)

/-- One capped while loop of pass 1 of `getDenominationsNeeded`:
`while(amount >= denominations[i] && notesAvailable[i] > 0 && notesNeeded[i] < noteLimits[i])
 { notesNeeded[i]++; notesAvailable[i]--; amount -= denominations[i]; }`.
Arguments and result are `(amount, notesAvailable[i], notesNeeded[i])`;
recursion is on the strictly decreasing `notesAvailable[i]`. -/
def cappedTake (d : Nat) (limit : ℚ) : Nat → Nat → Nat → Nat × Nat × Nat
  | amount, 0, needed => (amount, 0, needed)
  | amount, avail + 1, needed =>
    if d ≤ amount ∧ (needed : ℚ) < limit then
      cappedTake d limit (amount - d) avail (needed + 1)
    else
      (amount, avail + 1, needed)

/-- One uncapped while loop of pass 2 of `getDenominationsNeeded`:
`while(amount >= denominations[i] && notesAvailable[i] > 0)
 { notesNeeded[i]++; notesAvailable[i]--; amount -= denominations[i]; }`. -/
def greedyTake (d : Nat) : Nat → Nat → Nat → Nat × Nat × Nat
  | amount, 0, needed => (amount, 0, needed)
  | amount, avail + 1, needed =>
    if d ≤ amount then
      greedyTake d (amount - d) avail (needed + 1)
    else
      (amount, avail + 1, needed)

/-- `getDenominationsNeeded(amount)` of `driver.ts`.  The source reads and
overwrites the global `availableNotes` and returns the `Notes` bundle; the
embedding takes the inventory as an argument and returns
`(bundle, final value of the local amount, updated availableNotes)`.
The final `amount` is `0` exactly when the requested amount was fully
composed; the source drops it, but it is the observable that decides
whether the allocation succeeded.  `noteLimits` is the same value
`amount / totalNotes` for all three denominations (real division in the
source, the exact rational `mkRat amount totalNotes` here; the lemma
`noteLimit_eq_div` below shows this is the rational division
`(amount : ℚ) / totalNotes`). -/
def getDenominationsNeeded (amount : Nat) (notes : Notes) : Notes × Nat × Notes :=
  let totalNotes := notes.twenty + notes.ten + notes.five
  let noteLimit : ℚ := mkRat (amount : Int) totalNotes
  let p20 := cappedTake 20 noteLimit amount notes.twenty 0
  let p10 := cappedTake 10 noteLimit p20.1 notes.ten 0
  let p5 := cappedTake 5 noteLimit p10.1 notes.five 0
  if p5.1 ≠ 0 then
    let q20 := greedyTake 20 p5.1 p20.2.1 p20.2.2
    let q10 := greedyTake 10 q20.1 p10.2.1 p10.2.2
    let q5 := greedyTake 5 q10.1 p5.2.1 p5.2.2
    ({ five := q5.2.2, ten := q10.2.2, twenty := q20.2.2 }, q5.1,
     { five := q5.2.1, ten := q10.2.1, twenty := q20.2.1 })
  else
    ({ five := p5.2.2, ten := p10.2.2, twenty := p20.2.2 }, p5.1,
     { five := p5.2.1, ten := p10.2.1, twenty := p20.2.1 })

/-- `updateUserStats(notesWithdrawn)`: prices the withdrawn bundle
(`totalWithdrawn`), subtracts it from `balance`, adds it to `userAmount`
and adds the bundle componentwise to `userNotes`. -/
def updateUserStats (notesWithdrawn : Notes) (s : ATMState) : ATMState :=
  let totalWithdrawn : Nat :=
    notesWithdrawn.five * 5 + notesWithdrawn.ten * 10 + notesWithdrawn.twenty * 20
  { s with
    balance := s.balance - totalWithdrawn
    userAmount := s.userAmount + totalWithdrawn
    userNotes :=
      { five := s.userNotes.five + notesWithdrawn.five
        ten := s.userNotes.ten + notesWithdrawn.ten
        twenty := s.userNotes.twenty + notesWithdrawn.twenty } }

/-- `withdraw(amount_to_withdraw)`: recomputes `trueBalance` locally, and
only if `amount_to_withdraw > 0 && amount_to_withdraw <= trueBalance`
runs the allocator (committing its inventory update) and
`updateUserStats`; otherwise it is a no-op.  The HTML stats-panel update
(`updateStatsPanel`) renders fields of the state and has no state effect. -/
def withdraw (amount_to_withdraw : Nat) (s : ATMState) : ATMState :=
  let trueBalance : Int := s.balance + overdraftLimit
  if 0 < amount_to_withdraw ∧ (amount_to_withdraw : Int) ≤ trueBalance then
    let batchOfNotes := getDenominationsNeeded amount_to_withdraw s.availableNotes
    updateUserStats batchOfNotes.1 { s with availableNotes := batchOfNotes.2.2 }
  else
    s

/-- JavaScript `parseInt` restricted to the strings this program feeds it
(buffers built from keypad characters): the longest leading run of decimal
digits is parsed; with no leading digit (in particular the empty buffer)
the result is `NaN`, modelled as `none`. -/
def jsParseInt (s : String) : Option Nat :=
  let digits := s.data.takeWhile Char.isDigit
  if digits.isEmpty then none
  else some (digits.foldl (fun n c => 10 * n + (c.toNat - 48)) 0)

/-- The transient messages the terminal can display, one constructor per
`displayTimedMessage` call site of the source:
* `insertionError` — `"No more can be inserted!!"`;
* `deletionError` — `"No more can be deleted!!"`;
* `pinCorrect` — `"PIN correct!"`;
* `pinIncorrect` — `"PIN incorrect!"`;
* `withdrawn n` — `"Withdrawn: " + n`;
* `notEnoughNotes` — `"Not enougth notes present!"` (sic);
* `cantDispense` — `"Can't dispense that denomination!!"`;
* `notEnoughAccount` — `"Not enough in Account!"`. -/
inductive Signal where
  | insertionError
  | deletionError
  | pinCorrect
  | pinIncorrect
  | withdrawn (amount : Nat)
  | notEnoughNotes
  | cantDispense
  | notEnoughAccount
deriving DecidableEq, Repr

/-- `displayTimedMessage(message, default_message)` as it affects the
state: `messageTimerOn` is true afterwards (it was set, or was already
true, in which case the new message is silently dropped and the flag kept).
The message argument itself is returned alongside the state by each
transition below. -/
def displayTimedMessage (s : ATMState) : ATMState :=
  if s.messageTimerOn = false then { s with messageTimerOn := true } else s

/-- `pinInserter(digit)`: appends to `pin` when the event carries a single
character, the buffer holds fewer than 4 characters and no timed message
is showing; otherwise `displayTimedMessage(insertionError, ...)`. -/
def pinInserter (digit : String) (s : ATMState) : ATMState × Option Signal :=
  if digit.length = 1 ∧ s.pin.length < 4 ∧ s.messageTimerOn = false then
    ({ s with pin := s.pin ++ digit }, none)
  else
    (displayTimedMessage s, some .insertionError)

/-- `withdrawalInserter(digit)`: appends to `toWithdraw` when the event
carries a single character, the buffer holds fewer than 5 characters and
no timed message is showing; otherwise
`displayTimedMessage(insertionError, ...)`. -/
def withdrawalInserter (digit : String) (s : ATMState) : ATMState × Option Signal :=
  if digit.length = 1 ∧ s.toWithdraw.length < 5 ∧ s.messageTimerOn = false then
    ({ s with toWithdraw := s.toWithdraw ++ digit }, none)
  else
    (displayTimedMessage s, some .insertionError)

/-- `inputManager(digit)`: dispatches on `loginScreen`. -/
def inputManager (digit : String) (s : ATMState) : ATMState × Option Signal :=
  if s.loginScreen then pinInserter digit s else withdrawalInserter digit s

/-- `substring(0, length - 1)` on the buffers: drop the last character. -/
def jsDropLastChar (s : String) : String := String.mk s.data.dropLast

/-- `digitRemover()`: removes the last character of the active buffer when
it is non-empty and no timed message is showing; otherwise
`displayTimedMessage(deletionError, ...)`. -/
def digitRemover (s : ATMState) : ATMState × Option Signal :=
  if s.loginScreen then
    if s.pin.length > 0 ∧ s.messageTimerOn = false then
      ({ s with pin := jsDropLastChar s.pin }, none)
    else
      (displayTimedMessage s, some .deletionError)
  else
    if s.toWithdraw.length > 0 ∧ s.messageTimerOn = false then
      ({ s with toWithdraw := jsDropLastChar s.toWithdraw }, none)
    else
      (displayTimedMessage s, some .deletionError)

/-- `attemptUserInput()`.  On the login screen, `login(pin)` posts the PIN
to the verification endpoint; that external collaborator's answer is the
`loginResult` argument (`some balance` when the endpoint accepts the PIN
and returns the account balance, `none` when it rejects).  On the
withdrawal screen the buffer is parsed and checked exactly as in the
source; a `NaN` parse fails the `castedWithdrawalAmount <= trueBalance()`
comparison and lands in the `"Not enough in Account!"` branch. -/
def attemptUserInput (loginResult : Option Int) (s : ATMState) : ATMState × Signal :=
  if s.loginScreen then
    match loginResult with
    | some bal =>
      (displayTimedMessage
        { s with balance := bal, initialBalance := bal, loginScreen := false },
       .pinCorrect)
    | none =>
      (displayTimedMessage { s with pin := "" }, .pinIncorrect)
  else
    match jsParseInt s.toWithdraw with
    | none =>
      (displayTimedMessage { s with toWithdraw := "" }, .notEnoughAccount)
    | some castedWithdrawalAmount =>
      if (castedWithdrawalAmount : Int) ≤ trueBalance s then
        if castedWithdrawalAmount % 5 = 0 ∧
            haveEnoughCash castedWithdrawalAmount s.availableNotes then
          (displayTimedMessage
            { withdraw castedWithdrawalAmount s with toWithdraw := "" },
           .withdrawn castedWithdrawalAmount)
        else if ¬ haveEnoughCash castedWithdrawalAmount s.availableNotes then
          (displayTimedMessage { s with toWithdraw := "" }, .notEnoughNotes)
        else
          (displayTimedMessage { s with toWithdraw := "" }, .cantDispense)
      else
        (displayTimedMessage { s with toWithdraw := "" }, .notEnoughAccount)

/-- The input events of the terminal: a keypad character, the delete key,
the confirm key (carrying the PIN-verification collaborator's synchronous
answer, which is only consulted on the login screen), and the firing of
the `setTimeout` callback that ends a timed message. -/
inductive Event where
  | digit (d : String)
  | backspace
  | confirm (loginResult : Option Int)
  | tick

/-- One input event processed by the terminal. -/
def step (s : ATMState) : Event → ATMState × Option Signal
  | .digit d => inputManager d s
  | .backspace => digitRemover s
  | .confirm r => ((attemptUserInput r s).1, some (attemptUserInput r s).2)
  | .tick => ({ s with messageTimerOn := false }, none)

/-- Processing a list of events in order, starting from `s`. -/
def run (s : ATMState) : List Event → ATMState
  | [] => s
  | e :: es => run (step s e).1 es

/-- States the terminal can be in: those produced by some event sequence
from the initial global values. -/
def Reachable (s : ATMState) : Prop := ∃ es : List Event, run initState es = s

/-- The overdraft test of `withdrawalMessage`: the source switches to the
overdraft display exactly when `balance < 0`. -/
def inOverdraft (s : ATMState) : Prop := s.balance < 0

/-- A logged-in state about to confirm a withdrawal of 30 from an
inventory holding only two twenty-pound notes: total cash (40) suffices
but 30 cannot be composed from twenties alone. -/
def mismatchState : ATMState :=
  { messageTimerOn := false
    pin := ""
    toWithdraw := "30"
    balance := 50
    loginScreen := false
    userAmount := 0
    initialBalance := 50
    availableNotes := { five := 0, ten := 0, twenty := 2 }
    userNotes := { five := 0, ten := 0, twenty := 0 } }

/-- A logged-in state about to confirm the non-divisible amount 7 with an
empty inventory (total cash 0 < 7). -/
def nondivisibleNoCashState : ATMState :=
  { messageTimerOn := false
    pin := ""
    toWithdraw := "7"
    balance := 50
    loginScreen := false
    userAmount := 0
    initialBalance := 50
    availableNotes := { five := 0, ten := 0, twenty := 0 }
    userNotes := { five := 0, ten := 0, twenty := 0 } }

/-- A logged-in state about to confirm the non-divisible amount 7 with the
full starting inventory (total cash 310 ≥ 7). -/
def nondivisibleCashState : ATMState :=
  { nondivisibleNoCashState with
    availableNotes := { five := 4, ten := 15, twenty := 7 } }

/-- A logged-in state whose amount buffer is still empty: `parseInt("")`
is `NaN`. -/
def emptyBufferState : ATMState :=
  { messageTimerOn := false
    pin := ""
    toWithdraw := ""
    balance := 50
    loginScreen := false
    userAmount := 0
    initialBalance := 50
    availableNotes := { five := 4, ten := 15, twenty := 7 }
    userNotes := { five := 0, ten := 0, twenty := 0 } }

/-- A logged-in state about to confirm 99999, far beyond
`trueBalance() = 150`. -/
def overLimitState : ATMState := { emptyBufferState with toWithdraw := "99999" }

/-- Scenario D of the specification: balance 50, overdraft limit 100,
confirming amount 140, with the full starting inventory. -/
def scenarioDState : ATMState := { emptyBufferState with toWithdraw := "140" }

/-- Scenario D's numbers but with a skewed inventory: 100 twenties and a
single ten (cash 2010), from which the two-pass allocator composes only
130 of the requested 140. -/
def skewedScenarioDState : ATMState :=
  { scenarioDState with availableNotes := { five := 0, ten := 1, twenty := 100 } }

/-- A logged-in state about to confirm the amount 0. -/
def zeroBufferState : ATMState := { emptyBufferState with toWithdraw := "0" }

/-- Four keypad digits, filling the 4-character PIN buffer. -/
def pinFillTrace : List Event :=
  [.digit ("1"), .digit ("2"), .digit ("3"), .digit ("4")]

/-- A login followed by a successful withdrawal of 20. -/
def conservationTrace : List Event :=
  [.confirm (some 50), .digit ("2"), .digit ("0"), .confirm none]

/-- A login followed by a successful withdrawal of 40. -/
def statsTrace : List Event :=
  [.confirm (some 100), .digit ("4"), .digit ("0"), .confirm none]

/-- The per-denomination cap used in `getDenominationsNeeded` is the real
division `amount / totalNotes` of the source. -/
theorem noteLimit_eq_div (amount totalNotes : Nat) :
    mkRat (amount : Int) totalNotes = (amount : ℚ) / (totalNotes : ℚ) := by
  rw [Rat.mkRat_eq_div]
  norm_num

/-- Accounting invariant of one capped while loop: each iteration moves
value `d` from `amount` into the `needed` counter and one note from
`avail` into `needed`. -/
theorem cappedTake_spec (d : Nat) (l : ℚ) (v : Nat) :
    ∀ a n,
      (cappedTake d l a v n).1 + d * (cappedTake d l a v n).2.2 = a + d * n ∧
      (cappedTake d l a v n).2.1 + (cappedTake d l a v n).2.2 = v + n := by
  induction v with
  | zero => intro a n; simp [cappedTake]
  | succ v ih =>
    intro a n
    simp only [cappedTake]
    split
    case isTrue h =>
      obtain ⟨hda, -⟩ := h
      obtain ⟨h1, h2⟩ := ih (a - d) (n + 1)
      rw [Nat.mul_succ] at h1
      exact ⟨by omega, by omega⟩
    case isFalse h => simp

/-- Accounting invariant of one uncapped while loop of pass 2. -/
theorem greedyTake_spec (d : Nat) (v : Nat) :
    ∀ a n,
      (greedyTake d a v n).1 + d * (greedyTake d a v n).2.2 = a + d * n ∧
      (greedyTake d a v n).2.1 + (greedyTake d a v n).2.2 = v + n := by
  induction v with
  | zero => intro a n; simp [greedyTake]
  | succ v ih =>
    intro a n
    simp only [greedyTake]
    split
    case isTrue hda =>
      obtain ⟨h1, h2⟩ := ih (a - d) (n + 1)
      rw [Nat.mul_succ] at h1
      exact ⟨by omega, by omega⟩
    case isFalse h => simp

/-- Master accounting theorem for `getDenominationsNeeded`: the value of
the returned bundle plus the left-over amount is the requested amount, and
each inventory count drops by exactly the bundle's count for that
denomination — whether or not the left-over amount is zero. -/
theorem getDenominationsNeeded_spec (amount : Nat) (notes : Notes) :
    20 * (getDenominationsNeeded amount notes).1.twenty +
        10 * (getDenominationsNeeded amount notes).1.ten +
        5 * (getDenominationsNeeded amount notes).1.five +
        (getDenominationsNeeded amount notes).2.1 = amount ∧
    (getDenominationsNeeded amount notes).2.2.twenty +
        (getDenominationsNeeded amount notes).1.twenty = notes.twenty ∧
    (getDenominationsNeeded amount notes).2.2.ten +
        (getDenominationsNeeded amount notes).1.ten = notes.ten ∧
    (getDenominationsNeeded amount notes).2.2.five +
        (getDenominationsNeeded amount notes).1.five = notes.five := by
  simp only [getDenominationsNeeded]
  set l := mkRat (amount : Int) (notes.twenty + notes.ten + notes.five) with hl
  set p20 := cappedTake 20 l amount notes.twenty 0 with hp20
  set p10 := cappedTake 10 l p20.1 notes.ten 0 with hp10
  set p5 := cappedTake 5 l p10.1 notes.five 0 with hp5
  obtain ⟨ha20, hv20⟩ := cappedTake_spec 20 l notes.twenty amount 0
  obtain ⟨ha10, hv10⟩ := cappedTake_spec 10 l notes.ten p20.1 0
  obtain ⟨ha5, hv5⟩ := cappedTake_spec 5 l notes.five p10.1 0
  rw [← hp20] at ha20 hv20
  rw [← hp10] at ha10 hv10
  rw [← hp5] at ha5 hv5
  split
  case isTrue h =>
    set q20 := greedyTake 20 p5.1 p20.2.1 p20.2.2 with hq20
    set q10 := greedyTake 10 q20.1 p10.2.1 p10.2.2 with hq10
    set q5 := greedyTake 5 q10.1 p5.2.1 p5.2.2 with hq5
    obtain ⟨ga20, gv20⟩ := greedyTake_spec 20 p20.2.1 p5.1 p20.2.2
    obtain ⟨ga10, gv10⟩ := greedyTake_spec 10 p10.2.1 q20.1 p10.2.2
    obtain ⟨ga5, gv5⟩ := greedyTake_spec 5 p5.2.1 q10.1 p5.2.2
    rw [← hq20] at ga20 gv20
    rw [← hq10] at ga10 gv10
    rw [← hq5] at ga5 gv5
    refine ⟨?_, ?_, ?_, ?_⟩
    · show 20 * q20.2.2 + 10 * q10.2.2 + 5 * q5.2.2 + q5.1 = amount
      omega
    · show q20.2.1 + q20.2.2 = notes.twenty
      omega
    · show q10.2.1 + q10.2.2 = notes.ten
      omega
    · show q5.2.1 + q5.2.2 = notes.five
      omega
  case isFalse h =>
    refine ⟨?_, ?_, ?_, ?_⟩
    · show 20 * p20.2.2 + 10 * p10.2.2 + 5 * p5.2.2 + p5.1 = amount
      omega
    · show p20.2.1 + p20.2.2 = notes.twenty
      omega
    · show p10.2.1 + p10.2.2 = notes.ten
      omega
    · show p5.2.1 + p5.2.2 = notes.five
      omega

/-- After `displayTimedMessage` the timer flag is on and nothing else of
the state changed (when the flag was already on the state is untouched,
which is the same state value). -/
theorem displayTimedMessage_eq (s : ATMState) :
    displayTimedMessage s = { s with messageTimerOn := true } := by
  cases s with
  | mk timer pin toW bal screen ua ib av un =>
    unfold displayTimedMessage
    cases timer <;> simp

/-- `withdraw` with a zero requested amount is a no-op: the
`amount_to_withdraw > 0` guard fails. -/
theorem withdraw_zero (s : ATMState) : withdraw 0 s = s := by
  simp [withdraw]

/-- `withdraw` with a positive amount within `trueBalance` runs the
allocator and commits its result. -/
theorem withdraw_pos (amt : Nat) (s : ATMState) (hpos : 0 < amt)
    (hbal : (amt : Int) ≤ s.balance + overdraftLimit) :
    withdraw amt s =
      updateUserStats (getDenominationsNeeded amt s.availableNotes).1
        { s with availableNotes := (getDenominationsNeeded amt s.availableNotes).2.2 } := by
  simp [withdraw, hpos, hbal]

/-- `confirm` on the withdrawal screen, success branch: amount parses,
fits in balance plus overdraft, is divisible by 5, and total cash
suffices. -/
theorem attemptUserInput_withdraw (s : ATMState) (r : Option Int) (amt : Nat)
    (hscreen : s.loginScreen = false)
    (hparse : jsParseInt s.toWithdraw = some amt)
    (hbal : (amt : Int) ≤ trueBalance s)
    (hdiv : amt % 5 = 0)
    (hcash : haveEnoughCash amt s.availableNotes) :
    attemptUserInput r s =
      ({ withdraw amt s with toWithdraw := "", messageTimerOn := true },
       .withdrawn amt) := by
  unfold attemptUserInput
  rw [hscreen, hparse]
  simp only [Bool.false_eq_true, if_false]
  rw [if_pos hbal, if_pos ⟨hdiv, hcash⟩, displayTimedMessage_eq]

/-- `confirm` on the withdrawal screen, `NaN` branch: a buffer with no
leading digit fails the `castedWithdrawalAmount <= trueBalance()`
comparison and is reported as `"Not enough in Account!"`. -/
theorem attemptUserInput_nan (s : ATMState) (r : Option Int)
    (hscreen : s.loginScreen = false)
    (hparse : jsParseInt s.toWithdraw = none) :
    attemptUserInput r s =
      ({ s with toWithdraw := "", messageTimerOn := true }, .notEnoughAccount) := by
  unfold attemptUserInput
  rw [hscreen, hparse]
  simp only [Bool.false_eq_true, if_false]
  rw [displayTimedMessage_eq]

/-- `confirm` on the withdrawal screen, insufficient-cash branch. -/
theorem attemptUserInput_notEnoughNotes (s : ATMState) (r : Option Int) (amt : Nat)
    (hscreen : s.loginScreen = false)
    (hparse : jsParseInt s.toWithdraw = some amt)
    (hbal : (amt : Int) ≤ trueBalance s)
    (hcash : ¬ haveEnoughCash amt s.availableNotes) :
    attemptUserInput r s =
      ({ s with toWithdraw := "", messageTimerOn := true }, .notEnoughNotes) := by
  unfold attemptUserInput
  rw [hscreen, hparse]
  simp only [Bool.false_eq_true, if_false]
  rw [if_pos hbal, if_neg (fun h => hcash h.2), if_pos hcash, displayTimedMessage_eq]

/-- `confirm` on the withdrawal screen, non-divisible branch: enough cash
is present but the amount is not a multiple of 5, so the source's final
`else` shows `"Can't dispense that denomination!!"`. -/
theorem attemptUserInput_cantDispense (s : ATMState) (r : Option Int) (amt : Nat)
    (hscreen : s.loginScreen = false)
    (hparse : jsParseInt s.toWithdraw = some amt)
    (hbal : (amt : Int) ≤ trueBalance s)
    (hdiv : amt % 5 ≠ 0)
    (hcash : haveEnoughCash amt s.availableNotes) :
    attemptUserInput r s =
      ({ s with toWithdraw := "", messageTimerOn := true }, .cantDispense) := by
  unfold attemptUserInput
  rw [hscreen, hparse]
  simp only [Bool.false_eq_true, if_false]
  rw [if_pos hbal, if_neg (fun h => hdiv h.1), if_neg (fun h => h hcash),
    displayTimedMessage_eq]

/-- `confirm` on the withdrawal screen, insufficient-account branch: the
parsed amount exceeds `trueBalance()`. -/
theorem attemptUserInput_notEnoughAccount (s : ATMState) (r : Option Int) (amt : Nat)
    (hscreen : s.loginScreen = false)
    (hparse : jsParseInt s.toWithdraw = some amt)
    (hbal : ¬ (amt : Int) ≤ trueBalance s) :
    attemptUserInput r s =
      ({ s with toWithdraw := "", messageTimerOn := true }, .notEnoughAccount) := by
  unfold attemptUserInput
  rw [hscreen, hparse]
  simp only [Bool.false_eq_true, if_false]
  rw [if_neg hbal, displayTimedMessage_eq]

/-- `confirm` on the login screen when the verification endpoint accepts
the PIN and returns a balance. -/
theorem attemptUserInput_loginSuccess (s : ATMState) (bal : Int)
    (hscreen : s.loginScreen = true) :
    attemptUserInput (some bal) s =
      ({ s with balance := bal, initialBalance := bal, loginScreen := false,
                messageTimerOn := true }, .pinCorrect) := by
  unfold attemptUserInput
  rw [hscreen, if_pos rfl]
  dsimp only
  rw [displayTimedMessage_eq]

/-- `confirm` on the login screen when the verification endpoint rejects
the PIN: the PIN buffer is cleared. -/
theorem attemptUserInput_loginFail (s : ATMState)
    (hscreen : s.loginScreen = true) :
    attemptUserInput none s =
      ({ s with pin := "", messageTimerOn := true }, .pinIncorrect) := by
  unfold attemptUserInput
  rw [hscreen, if_pos rfl]
  dsimp only
  rw [displayTimedMessage_eq]

/-- `withdraw` never touches the buffers, the screen flag, the timer flag
or `initialBalance`. -/
theorem withdraw_frame (amt : Nat) (s : ATMState) :
    (withdraw amt s).pin = s.pin ∧
    (withdraw amt s).toWithdraw = s.toWithdraw ∧
    (withdraw amt s).loginScreen = s.loginScreen ∧
    (withdraw amt s).messageTimerOn = s.messageTimerOn ∧
    (withdraw amt s).initialBalance = s.initialBalance := by
  simp only [withdraw]
  split <;> simp [updateUserStats]

/-- The four shapes a state can take after `attemptUserInput`: PIN
accepted, PIN rejected, a withdrawal-screen branch that only clears the
amount buffer, or a completed `withdraw` call with the buffer cleared. -/
theorem attemptUserInput_cases (r : Option Int) (s : ATMState) :
    (∃ bal, (attemptUserInput r s).1 =
      { s with balance := bal, initialBalance := bal, loginScreen := false,
               messageTimerOn := true }) ∨
    (attemptUserInput r s).1 = { s with pin := "", messageTimerOn := true } ∨
    (attemptUserInput r s).1 = { s with toWithdraw := "", messageTimerOn := true } ∨
    (∃ amt, (attemptUserInput r s).1 =
      { withdraw amt s with toWithdraw := "", messageTimerOn := true }) := by
  by_cases hscreen : s.loginScreen = false
  · cases hp : jsParseInt s.toWithdraw with
    | none =>
      rw [attemptUserInput_nan s r hscreen hp]
      exact Or.inr (Or.inr (Or.inl rfl))
    | some amt =>
      by_cases hbal : (amt : Int) ≤ trueBalance s
      · by_cases hcash : haveEnoughCash amt s.availableNotes
        · by_cases hdiv : amt % 5 = 0
          · rw [attemptUserInput_withdraw s r amt hscreen hp hbal hdiv hcash]
            exact Or.inr (Or.inr (Or.inr ⟨amt, rfl⟩))
          · rw [attemptUserInput_cantDispense s r amt hscreen hp hbal hdiv hcash]
            exact Or.inr (Or.inr (Or.inl rfl))
        · rw [attemptUserInput_notEnoughNotes s r amt hscreen hp hbal hcash]
          exact Or.inr (Or.inr (Or.inl rfl))
      · rw [attemptUserInput_notEnoughAccount s r amt hscreen hp hbal]
        exact Or.inr (Or.inr (Or.inl rfl))
  · have hscreen' : s.loginScreen = true := by
      revert hscreen; cases s.loginScreen <;> simp
    cases r with
    | some bal =>
      rw [attemptUserInput_loginSuccess s bal hscreen']
      exact Or.inl ⟨bal, rfl⟩
    | none =>
      rw [attemptUserInput_loginFail s hscreen']
      exact Or.inr (Or.inl rfl)

/-- Value accounting through one `withdraw` call: cash in the machine plus
the user's running total is unchanged (notes move, value does not). -/
theorem withdraw_conservation (amt : Nat) (s : ATMState) :
    calculateTotalRemainingCash (withdraw amt s).availableNotes +
        (withdraw amt s).userAmount =
      calculateTotalRemainingCash s.availableNotes + s.userAmount := by
  simp only [withdraw]
  split
  case isTrue h =>
    obtain ⟨hval, h20, h10, h5⟩ := getDenominationsNeeded_spec amt s.availableNotes
    simp only [updateUserStats, calculateTotalRemainingCash]
    omega
  case isFalse h => rfl

/-- `withdraw` keeps `userAmount` equal to the note-value of `userNotes`:
`updateUserStats` adds the same bundle to both sides of the equation. -/
theorem withdraw_userStats (amt : Nat) (s : ATMState)
    (h : s.userAmount =
      5 * s.userNotes.five + 10 * s.userNotes.ten + 20 * s.userNotes.twenty) :
    (withdraw amt s).userAmount =
      5 * (withdraw amt s).userNotes.five + 10 * (withdraw amt s).userNotes.ten +
        20 * (withdraw amt s).userNotes.twenty := by
  simp only [withdraw]
  split
  case isTrue hc =>
    simp only [updateUserStats]
    omega
  case isFalse hc => exact h

/-- One event preserves the quantity
`calculateTotalRemainingCash availableNotes + userAmount`. -/
theorem step_conservation (s : ATMState) (e : Event) :
    calculateTotalRemainingCash (step s e).1.availableNotes +
        (step s e).1.userAmount =
      calculateTotalRemainingCash s.availableNotes + s.userAmount := by
  cases e with
  | digit d =>
    simp only [step, inputManager]
    split
    · simp only [pinInserter]
      split
      · rfl
      · rw [displayTimedMessage_eq]
    · simp only [withdrawalInserter]
      split
      · rfl
      · rw [displayTimedMessage_eq]
  | backspace =>
    simp only [step, digitRemover]
    split <;> split
    · rfl
    · rw [displayTimedMessage_eq]
    · rfl
    · rw [displayTimedMessage_eq]
  | confirm r =>
    simp only [step]
    rcases attemptUserInput_cases r s with ⟨bal, hc⟩ | hc | hc | ⟨amt, hc⟩ <;>
      rw [hc]
    exact withdraw_conservation amt s
  | tick => rfl

/-- One event preserves the equation
`userAmount = 5·userNotes.five + 10·userNotes.ten + 20·userNotes.twenty`. -/
theorem step_userStats (s : ATMState) (e : Event)
    (h : s.userAmount =
      5 * s.userNotes.five + 10 * s.userNotes.ten + 20 * s.userNotes.twenty) :
    (step s e).1.userAmount =
      5 * (step s e).1.userNotes.five + 10 * (step s e).1.userNotes.ten +
        20 * (step s e).1.userNotes.twenty := by
  cases e with
  | digit d =>
    simp only [step, inputManager]
    split
    · simp only [pinInserter]
      split
      · exact h
      · rw [displayTimedMessage_eq]; exact h
    · simp only [withdrawalInserter]
      split
      · exact h
      · rw [displayTimedMessage_eq]; exact h
  | backspace =>
    simp only [step, digitRemover]
    split <;> split
    · exact h
    · rw [displayTimedMessage_eq]; exact h
    · exact h
    · rw [displayTimedMessage_eq]; exact h
  | confirm r =>
    simp only [step]
    rcases attemptUserInput_cases r s with ⟨bal, hc⟩ | hc | hc | ⟨amt, hc⟩ <;>
      rw [hc]
    · exact h
    · exact h
    · exact h
    · exact withdraw_userStats amt s h
  | tick => exact h

/-- Dropping the last character shortens a buffer by one. -/
theorem jsDropLastChar_length (t : String) :
    (jsDropLastChar t).length = t.length - 1 := by
  show t.data.dropLast.length = t.length - 1
  rw [List.length_dropLast]
  rfl

/-- One event keeps the PIN buffer within 4 characters and the amount
buffer within 5. -/
theorem step_buffers (s : ATMState) (e : Event)
    (h4 : s.pin.length ≤ 4) (h5 : s.toWithdraw.length ≤ 5) :
    (step s e).1.pin.length ≤ 4 ∧ (step s e).1.toWithdraw.length ≤ 5 := by
  cases e with
  | digit d =>
    simp only [step, inputManager]
    split
    · simp only [pinInserter]
      split
      case isTrue hc =>
        obtain ⟨hd1, hlt, -⟩ := hc
        constructor
        · show (s.pin ++ d).length ≤ 4
          rw [String.length_append, hd1]
          omega
        · exact h5
      case isFalse hc =>
        rw [displayTimedMessage_eq]
        exact ⟨h4, h5⟩
    · simp only [withdrawalInserter]
      split
      case isTrue hc =>
        obtain ⟨hd1, hlt, -⟩ := hc
        refine ⟨h4, ?_⟩
        show (s.toWithdraw ++ d).length ≤ 5
        rw [String.length_append, hd1]
        omega
      case isFalse hc =>
        rw [displayTimedMessage_eq]
        exact ⟨h4, h5⟩
  | backspace =>
    simp only [step, digitRemover]
    split <;> split
    · refine ⟨?_, h5⟩
      show (jsDropLastChar s.pin).length ≤ 4
      have := jsDropLastChar_length s.pin
      omega
    · rw [displayTimedMessage_eq]; exact ⟨h4, h5⟩
    · refine ⟨h4, ?_⟩
      show (jsDropLastChar s.toWithdraw).length ≤ 5
      have := jsDropLastChar_length s.toWithdraw
      omega
    · rw [displayTimedMessage_eq]; exact ⟨h4, h5⟩
  | confirm r =>
    simp only [step]
    obtain ⟨hpin, htow, -, -, -⟩ := withdraw_frame 0 s
    rcases attemptUserInput_cases r s with ⟨bal, hc⟩ | hc | hc | ⟨amt, hc⟩ <;>
      rw [hc]
    · exact ⟨h4, h5⟩
    · exact ⟨by simp, h5⟩
    · exact ⟨h4, by simp⟩
    · obtain ⟨hpin', -⟩ := withdraw_frame amt s
      refine ⟨?_, by simp⟩
      show (withdraw amt s).pin.length ≤ 4
      rw [hpin']
      exact h4
  | tick => exact ⟨h4, h5⟩

/-- Value conservation along any event sequence. -/
theorem run_conservation (es : List Event) :
    ∀ s : ATMState,
      calculateTotalRemainingCash (run s es).availableNotes +
          (run s es).userAmount =
        calculateTotalRemainingCash s.availableNotes + s.userAmount := by
  induction es with
  | nil => intro s; rfl
  | cons e es ih =>
    intro s
    show calculateTotalRemainingCash (run (step s e).1 es).availableNotes +
        (run (step s e).1 es).userAmount = _
    rw [ih (step s e).1, step_conservation]

/-- The `userAmount`/`userNotes` equation is preserved along any event
sequence. -/
theorem run_userStats (es : List Event) :
    ∀ s : ATMState,
      s.userAmount =
          5 * s.userNotes.five + 10 * s.userNotes.ten + 20 * s.userNotes.twenty →
      (run s es).userAmount =
        5 * (run s es).userNotes.five + 10 * (run s es).userNotes.ten +
          20 * (run s es).userNotes.twenty := by
  induction es with
  | nil => intro s h; exact h
  | cons e es ih =>
    intro s h
    exact ih (step s e).1 (step_userStats s e h)

/-- The buffer bounds are preserved along any event sequence. -/
theorem run_buffers (es : List Event) :
    ∀ s : ATMState,
      s.pin.length ≤ 4 → s.toWithdraw.length ≤ 5 →
      (run s es).pin.length ≤ 4 ∧ (run s es).toWithdraw.length ≤ 5 := by
  induction es with
  | nil => intro s h4 h5; exact ⟨h4, h5⟩
  | cons e es ih =>
    intro s h4 h5
    obtain ⟨g4, g5⟩ := step_buffers s e h4 h5
    exact ih (step s e).1 g4 g5

/-- C1.  The claim states that when the allocator fails to compose the
full amount (non-zero remainder after both passes) the inventory observed
afterwards equals the inventory before the call.  This is false:
`getDenominationsNeeded 30` on the inventory `{twenty: 2, ten: 0, five: 0}`
leaves remainder 10, yet one twenty-pound note has been removed from the
inventory. -/
theorem C1_failure_mutates_inventory :
    (getDenominationsNeeded 30 { five := 0, ten := 0, twenty := 2 }).2.1 ≠ 0 ∧
    (getDenominationsNeeded 30 { five := 0, ten := 0, twenty := 2 }).2.2 ≠
      { five := 0, ten := 0, twenty := 2 } := by
  decide

/-- C1 (amended).  When the allocator fails to compose the full amount,
the inventory observed afterwards equals the inventory before the call
minus the partial bundle the two passes took — the partial decrements are
committed, not rolled back. -/
theorem C1_amended_partial_decrements_commit (amount : Nat) (inv : Notes)
    (hfail : (getDenominationsNeeded amount inv).2.1 ≠ 0) :
    (getDenominationsNeeded amount inv).2.2.twenty +
        (getDenominationsNeeded amount inv).1.twenty = inv.twenty ∧
    (getDenominationsNeeded amount inv).2.2.ten +
        (getDenominationsNeeded amount inv).1.ten = inv.ten ∧
    (getDenominationsNeeded amount inv).2.2.five +
        (getDenominationsNeeded amount inv).1.five = inv.five := by
  obtain ⟨-, h20, h10, h5⟩ := getDenominationsNeeded_spec amount inv
  exact ⟨h20, h10, h5⟩

/-- C1 (amended), witnessed at amount 30 and inventory `{twenty: 2}`. -/
theorem C1_amended_witness :
    (getDenominationsNeeded 30 { five := 0, ten := 0, twenty := 2 }).2.1 ≠ 0 ∧
    ((getDenominationsNeeded 30 { five := 0, ten := 0, twenty := 2 }).2.2.twenty +
        (getDenominationsNeeded 30 { five := 0, ten := 0, twenty := 2 }).1.twenty = 2 ∧
      (getDenominationsNeeded 30 { five := 0, ten := 0, twenty := 2 }).2.2.ten +
        (getDenominationsNeeded 30 { five := 0, ten := 0, twenty := 2 }).1.ten = 0 ∧
      (getDenominationsNeeded 30 { five := 0, ten := 0, twenty := 2 }).2.2.five +
        (getDenominationsNeeded 30 { five := 0, ten := 0, twenty := 2 }).1.five = 0) :=
  ⟨by decide,
   C1_amended_partial_decrements_commit 30 { five := 0, ten := 0, twenty := 2 }
     (by decide)⟩

/-- C2.  The claim states that a confirmed amount that passes the
account-balance, divisibility and total-cash checks but that the allocator
cannot fully compose is signalled `DenominationMismatch`, not
`WithdrawalSucceeded`.  This is false: in `mismatchState` (amount 30,
inventory `{twenty: 2}`, cash 40, all three checks pass) the allocator
leaves remainder 10, yet the machine still emits `Withdrawn: 30` — the
success signal for the full requested amount. -/
theorem C2_mismatch_still_signals_success :
    (30 : Int) ≤ trueBalance mismatchState ∧
    30 % 5 = 0 ∧
    haveEnoughCash 30 mismatchState.availableNotes ∧
    (getDenominationsNeeded 30 mismatchState.availableNotes).2.1 ≠ 0 ∧
    (attemptUserInput none mismatchState).2 = .withdrawn 30 ∧
    (attemptUserInput none mismatchState).1.toWithdraw = "" := by
  decide

/-- C2 (amended).  When a confirmed amount passes the account-balance,
divisibility-by-5 and total-cash checks but the allocator cannot fully
compose it, the machine clears the amount buffer and still signals
`WithdrawalSucceeded` (`Withdrawn: amount`) — no mismatch signal exists —
and the allocator's partial inventory decrements are committed. -/
theorem C2_amended_mismatch_commits_and_succeeds (s : ATMState) (r : Option Int)
    (amt : Nat)
    (hscreen : s.loginScreen = false)
    (hparse : jsParseInt s.toWithdraw = some amt)
    (hbal : (amt : Int) ≤ trueBalance s)
    (hdiv : amt % 5 = 0)
    (hcash : haveEnoughCash amt s.availableNotes)
    (hfail : (getDenominationsNeeded amt s.availableNotes).2.1 ≠ 0) :
    (attemptUserInput r s).2 = .withdrawn amt ∧
    (attemptUserInput r s).1.toWithdraw = "" ∧
    (attemptUserInput r s).1.availableNotes =
      (getDenominationsNeeded amt s.availableNotes).2.2 := by
  have hpos : 0 < amt := by
    obtain ⟨hval, -, -, -⟩ := getDenominationsNeeded_spec amt s.availableNotes
    omega
  have h := attemptUserInput_withdraw s r amt hscreen hparse hbal hdiv hcash
  rw [h]
  refine ⟨rfl, rfl, ?_⟩
  rw [withdraw_pos amt s hpos hbal]
  rfl

/-- C2 (amended), witnessed at `mismatchState`. -/
theorem C2_amended_witness :
    mismatchState.loginScreen = false ∧
    jsParseInt mismatchState.toWithdraw = some 30 ∧
    (30 : Int) ≤ trueBalance mismatchState ∧
    30 % 5 = 0 ∧
    haveEnoughCash 30 mismatchState.availableNotes ∧
    (getDenominationsNeeded 30 mismatchState.availableNotes).2.1 ≠ 0 ∧
    ((attemptUserInput none mismatchState).2 = .withdrawn 30 ∧
      (attemptUserInput none mismatchState).1.toWithdraw = "" ∧
      (attemptUserInput none mismatchState).1.availableNotes =
        (getDenominationsNeeded 30 mismatchState.availableNotes).2.2) :=
  ⟨rfl, by decide, by decide, by decide, by decide, by decide,
   C2_amended_mismatch_commits_and_succeeds mismatchState none 30 rfl (by decide)
     (by decide) (by decide) (by decide) (by decide)⟩

/-- C3.  The claim states that allocating 100 from the inventory
`{twenty: 7, ten: 15, five: 4}` returns the bundle
`{twenty: 5, ten: 0, five: 0}`.  This is false: the pass-1 cap is the
real number `100 / 26 ≈ 3.85`, so pass 1 takes four twenties
(`3 < 3.85` still admits the fourth) and then two tens, completing the
amount — the bundle is `{twenty: 4, ten: 2, five: 0}`. -/
theorem C3_scenarioA_bundle_counterexample :
    (getDenominationsNeeded 100 { five := 4, ten := 15, twenty := 7 }).1 ≠
      { five := 0, ten := 0, twenty := 5 } := by
  decide

/-- C3 (amended).  With inventory `{twenty: 7, ten: 15, five: 4}` and
amount 100, the two-pass capped-greedy algorithm returns the bundle
`{twenty: 4, ten: 2, five: 0}` with remainder 0, and the inventory
afterwards is `{twenty: 3, ten: 13, five: 4}` — exactly those
decrements. -/
theorem C3_amended_scenarioA_bundle :
    getDenominationsNeeded 100 { five := 4, ten := 15, twenty := 7 } =
      ({ five := 0, ten := 2, twenty := 4 }, 0,
       { five := 4, ten := 13, twenty := 3 }) := by
  decide

/-- C4.  The claim states that every confirmed non-divisible amount within
`availableToWithdraw` is signalled `NonDivisibleAmount` regardless of
whether total cash suffices.  This is false: the source gates the
divisibility message behind the cash check (`else if(!enoughCashPresent)`
comes first), so confirming 7 with an empty inventory emits the
insufficient-cash message `Not enougth notes present!`, not the
non-divisible message `Can't dispense that denomination!!`. -/
theorem C4_nondivisible_without_cash_counterexample :
    jsParseInt nondivisibleNoCashState.toWithdraw = some 7 ∧
    (7 : Int) ≤ trueBalance nondivisibleNoCashState ∧
    7 % 5 ≠ 0 ∧
    ¬ haveEnoughCash 7 nondivisibleNoCashState.availableNotes ∧
    (attemptUserInput none nondivisibleNoCashState).2 = .notEnoughNotes ∧
    Signal.notEnoughNotes ≠ Signal.cantDispense := by
  decide

/-- C4 (amended).  For every confirmed non-divisible amount within
`availableToWithdraw` *whose total-cash check passes*, the machine signals
the non-divisible message (`Can't dispense that denomination!!`), clears
the amount buffer, and changes no inventory count, balance or user
statistic; with insufficient cash the insufficient-cash signal is emitted
instead. -/
theorem C4_amended_nondivisible_with_cash (s : ATMState) (r : Option Int)
    (amt : Nat)
    (hscreen : s.loginScreen = false)
    (hparse : jsParseInt s.toWithdraw = some amt)
    (hbal : (amt : Int) ≤ trueBalance s)
    (hdiv : amt % 5 ≠ 0)
    (hcash : haveEnoughCash amt s.availableNotes) :
    attemptUserInput r s =
      ({ s with toWithdraw := "", messageTimerOn := true }, .cantDispense) ∧
    (attemptUserInput r s).1.availableNotes = s.availableNotes ∧
    (attemptUserInput r s).1.balance = s.balance ∧
    (attemptUserInput r s).1.userAmount = s.userAmount ∧
    (attemptUserInput r s).1.userNotes = s.userNotes := by
  have h := attemptUserInput_cantDispense s r amt hscreen hparse hbal hdiv hcash
  rw [h]
  exact ⟨rfl, rfl, rfl, rfl, rfl⟩

/-- C4 (amended), witnessed at amount 7 with the full inventory. -/
theorem C4_amended_witness :
    nondivisibleCashState.loginScreen = false ∧
    jsParseInt nondivisibleCashState.toWithdraw = some 7 ∧
    (7 : Int) ≤ trueBalance nondivisibleCashState ∧
    7 % 5 ≠ 0 ∧
    haveEnoughCash 7 nondivisibleCashState.availableNotes ∧
    (attemptUserInput none nondivisibleCashState =
        ({ nondivisibleCashState with toWithdraw := "", messageTimerOn := true },
         .cantDispense) ∧
      (attemptUserInput none nondivisibleCashState).1.availableNotes =
        nondivisibleCashState.availableNotes ∧
      (attemptUserInput none nondivisibleCashState).1.balance =
        nondivisibleCashState.balance ∧
      (attemptUserInput none nondivisibleCashState).1.userAmount =
        nondivisibleCashState.userAmount ∧
      (attemptUserInput none nondivisibleCashState).1.userNotes =
        nondivisibleCashState.userNotes) :=
  ⟨rfl, by decide, by decide, by decide, by decide,
   C4_amended_nondivisible_with_cash nondivisibleCashState none 7 rfl (by decide)
     (by decide) (by decide) (by decide)⟩

/-- C5.  In every reachable state, the value that has left the inventory
(initial total inventory value minus current total inventory value)
equals `userAmount` — and `userAmount` is exactly the accumulated sum of
the dispensed bundle values, since `updateUserStats` adds the value of
each dispensed bundle to it.  Stated both as the subtraction of the claim
and as the subtraction-free sum identity. -/
theorem C5_conservation (s : ATMState) (h : Reachable s) :
    calculateTotalRemainingCash initState.availableNotes -
        calculateTotalRemainingCash s.availableNotes = s.userAmount ∧
    calculateTotalRemainingCash s.availableNotes + s.userAmount =
      calculateTotalRemainingCash initState.availableNotes := by
  obtain ⟨es, rfl⟩ := h
  have hrun := run_conservation es initState
  have h0 : initState.userAmount = 0 := rfl
  constructor <;> omega

/-- C5, witnessed after a login and a successful withdrawal of 20. -/
theorem C5_conservation_witness :
    Reachable (run initState conservationTrace) ∧
    (calculateTotalRemainingCash initState.availableNotes -
        calculateTotalRemainingCash (run initState conservationTrace).availableNotes =
      (run initState conservationTrace).userAmount ∧
    calculateTotalRemainingCash (run initState conservationTrace).availableNotes +
        (run initState conservationTrace).userAmount =
      calculateTotalRemainingCash initState.availableNotes) :=
  ⟨⟨conservationTrace, rfl⟩,
   C5_conservation (run initState conservationTrace) ⟨conservationTrace, rfl⟩⟩

/-- C6.  The claim states that confirming a non-numeric buffer signals a
dedicated `InvalidAmount` error.  This is false: the source has no such
signal — `parseInt` yields `NaN`, the comparison
`castedWithdrawalAmount <= trueBalance()` is false, and the machine emits
exactly the insufficient-balance message `Not enough in Account!`, the
same signal an over-limit numeric amount (99999 > 150) produces. -/
theorem C6_invalid_parse_counterexample :
    jsParseInt emptyBufferState.toWithdraw = none ∧
    (attemptUserInput none emptyBufferState).2 = .notEnoughAccount ∧
    jsParseInt overLimitState.toWithdraw = some 99999 ∧
    ¬ (99999 : Int) ≤ trueBalance overLimitState ∧
    (attemptUserInput none overLimitState).2 = .notEnoughAccount := by
  decide

/-- C6 (amended).  Confirming a buffer that does not parse as an integer
clears the amount buffer and signals `InsufficientBalance`
(`Not enough in Account!`) — the `NaN` comparison fails the balance
check — with no change to balance, inventory or user statistics. -/
theorem C6_amended_invalid_parse (s : ATMState) (r : Option Int)
    (hscreen : s.loginScreen = false)
    (hparse : jsParseInt s.toWithdraw = none) :
    attemptUserInput r s =
      ({ s with toWithdraw := "", messageTimerOn := true }, .notEnoughAccount) ∧
    (attemptUserInput r s).1.balance = s.balance ∧
    (attemptUserInput r s).1.availableNotes = s.availableNotes ∧
    (attemptUserInput r s).1.userAmount = s.userAmount ∧
    (attemptUserInput r s).1.userNotes = s.userNotes := by
  have h := attemptUserInput_nan s r hscreen hparse
  rw [h]
  exact ⟨rfl, rfl, rfl, rfl, rfl⟩

/-- C6 (amended), witnessed at the empty buffer. -/
theorem C6_amended_witness :
    emptyBufferState.loginScreen = false ∧
    jsParseInt emptyBufferState.toWithdraw = none ∧
    (attemptUserInput none emptyBufferState =
        ({ emptyBufferState with toWithdraw := "", messageTimerOn := true },
         .notEnoughAccount) ∧
      (attemptUserInput none emptyBufferState).1.balance =
        emptyBufferState.balance ∧
      (attemptUserInput none emptyBufferState).1.availableNotes =
        emptyBufferState.availableNotes ∧
      (attemptUserInput none emptyBufferState).1.userAmount =
        emptyBufferState.userAmount ∧
      (attemptUserInput none emptyBufferState).1.userNotes =
        emptyBufferState.userNotes) :=
  ⟨rfl, by decide, C6_amended_invalid_parse emptyBufferState none rfl (by decide)⟩

/-- C7.  In every reachable state the PIN buffer holds at most 4
characters and the amount buffer at most 5; and a keypad digit arriving
while the active buffer is at its cap leaves the state unchanged apart
from the message timer and emits the insertion-rejected signal
(`No more can be inserted!!`). -/
theorem C7_buffer_caps (s : ATMState) (h : Reachable s) :
    (s.pin.length ≤ 4 ∧ s.toWithdraw.length ≤ 5) ∧
    (∀ d : String, s.loginScreen = true → s.pin.length = 4 →
      step s (.digit d) =
        ({ s with messageTimerOn := true }, some .insertionError)) ∧
    (∀ d : String, s.loginScreen = false → s.toWithdraw.length = 5 →
      step s (.digit d) =
        ({ s with messageTimerOn := true }, some .insertionError)) := by
  refine ⟨?_, ?_, ?_⟩
  · obtain ⟨es, rfl⟩ := h
    exact run_buffers es initState (by decide) (by decide)
  · intro d hscreen hlen
    have hcond : ¬ (d.length = 1 ∧ s.pin.length < 4 ∧ s.messageTimerOn = false) :=
      fun hc => by omega
    simp only [step, inputManager, hscreen, if_true]
    rw [pinInserter, if_neg hcond, displayTimedMessage_eq, hscreen]
  · intro d hscreen hlen
    have hcond :
        ¬ (d.length = 1 ∧ s.toWithdraw.length < 5 ∧ s.messageTimerOn = false) :=
      fun hc => by omega
    simp only [step, inputManager, hscreen, Bool.false_eq_true, if_false]
    rw [withdrawalInserter, if_neg hcond, displayTimedMessage_eq, hscreen]

/-- C7, witnessed after filling the PIN buffer with four digits and
pressing a fifth. -/
theorem C7_buffer_caps_witness :
    Reachable (run initState pinFillTrace) ∧
    (run initState pinFillTrace).loginScreen = true ∧
    (run initState pinFillTrace).pin.length = 4 ∧
    step (run initState pinFillTrace) (.digit ("5")) =
      ({ run initState pinFillTrace with messageTimerOn := true },
       some .insertionError) :=
  ⟨⟨pinFillTrace, rfl⟩, by decide, by decide,
   (C7_buffer_caps (run initState pinFillTrace) ⟨pinFillTrace, rfl⟩).2.1
     ("5") (by decide) (by decide)⟩

/-- C8.  The claim states that with balance 50 and overdraft limit 100 a
confirmed withdrawal of 140 that is divisible by 5 and within total cash
succeeds with final balance −90.  This is false as stated: the inventory
`{twenty: 100, ten: 1, five: 0}` holds 2010 in cash, yet the allocator
composes only 130 of the 140 (pass 1 is capped at
`140 / 101 ≈ 1.39` per denomination, pass 2 strands a remainder of 10),
so the balance afterwards is −80, not −90 — even though the machine
still reports `Withdrawn: 140`. -/
theorem C8_scenarioD_counterexample :
    jsParseInt skewedScenarioDState.toWithdraw = some 140 ∧
    skewedScenarioDState.balance = 50 ∧
    (140 : Int) ≤ trueBalance skewedScenarioDState ∧
    140 % 5 = 0 ∧
    haveEnoughCash 140 skewedScenarioDState.availableNotes ∧
    (attemptUserInput none skewedScenarioDState).2 = .withdrawn 140 ∧
    (attemptUserInput none skewedScenarioDState).1.balance = -80 ∧
    (-80 : Int) ≠ -90 := by
  decide

/-- C8 (amended).  With balance 50 (and overdraft limit 100) a confirmed
amount of 140 passes the `availableToWithdraw` check (150 ≥ 140); if
total cash suffices *and the allocator composes the full 140 (zero
remainder)*, the machine signals `Withdrawn: 140`, the balance afterwards
is −90, and the overdraft test `balance < 0` holds. -/
theorem C8_amended_scenarioD (s : ATMState) (r : Option Int)
    (hscreen : s.loginScreen = false)
    (hbal50 : s.balance = 50)
    (hparse : jsParseInt s.toWithdraw = some 140)
    (hcash : haveEnoughCash 140 s.availableNotes)
    (hcompose : (getDenominationsNeeded 140 s.availableNotes).2.1 = 0) :
    (140 : Int) ≤ trueBalance s ∧
    (attemptUserInput r s).2 = .withdrawn 140 ∧
    (attemptUserInput r s).1.balance = -90 ∧
    inOverdraft (attemptUserInput r s).1 := by
  have hbal : (140 : Int) ≤ trueBalance s := by
    rw [trueBalance, hbal50]
    norm_num [overdraftLimit]
  have h := attemptUserInput_withdraw s r 140 hscreen hparse hbal (by norm_num) hcash
  have hbalance : (attemptUserInput r s).1.balance = -90 := by
    rw [h]
    show (withdraw 140 s).balance = -90
    rw [withdraw_pos 140 s (by norm_num) hbal]
    obtain ⟨hval, -, -, -⟩ := getDenominationsNeeded_spec 140 s.availableNotes
    simp only [updateUserStats]
    rw [hbal50]
    omega
  refine ⟨hbal, by rw [h], hbalance, ?_⟩
  rw [inOverdraft, hbalance]
  norm_num

/-- C8 (amended), witnessed at Scenario D with the full starting
inventory, from which 140 is composed exactly (six twenties, two tens). -/
theorem C8_amended_witness :
    scenarioDState.loginScreen = false ∧
    scenarioDState.balance = 50 ∧
    jsParseInt scenarioDState.toWithdraw = some 140 ∧
    haveEnoughCash 140 scenarioDState.availableNotes ∧
    (getDenominationsNeeded 140 scenarioDState.availableNotes).2.1 = 0 ∧
    ((140 : Int) ≤ trueBalance scenarioDState ∧
      (attemptUserInput none scenarioDState).2 = .withdrawn 140 ∧
      (attemptUserInput none scenarioDState).1.balance = -90 ∧
      inOverdraft (attemptUserInput none scenarioDState).1) :=
  ⟨rfl, rfl, by decide, by decide, by decide,
   C8_amended_scenarioD scenarioDState none rfl rfl (by decide) (by decide)
     (by decide)⟩

/-- C9.  In every reachable state the user's cumulative withdrawn total
equals the value of the user's cumulative note counter,
`userAmount = 5·userNotes.five + 10·userNotes.ten + 20·userNotes.twenty`,
and every event of the state machine preserves this equation. -/
theorem C9_userAmount_matches_userNotes (s : ATMState) (h : Reachable s) :
    s.userAmount =
      5 * s.userNotes.five + 10 * s.userNotes.ten + 20 * s.userNotes.twenty ∧
    ∀ e : Event,
      (step s e).1.userAmount =
        5 * (step s e).1.userNotes.five + 10 * (step s e).1.userNotes.ten +
          20 * (step s e).1.userNotes.twenty := by
  have heq : s.userAmount =
      5 * s.userNotes.five + 10 * s.userNotes.ten + 20 * s.userNotes.twenty := by
    obtain ⟨es, rfl⟩ := h
    exact run_userStats es initState rfl
  exact ⟨heq, fun e => step_userStats s e heq⟩

/-- C9, witnessed after a login and a successful withdrawal of 40
(dispensed as two twenties). -/
theorem C9_witness :
    Reachable (run initState statsTrace) ∧
    (run initState statsTrace).userAmount =
      5 * (run initState statsTrace).userNotes.five +
        10 * (run initState statsTrace).userNotes.ten +
        20 * (run initState statsTrace).userNotes.twenty :=
  ⟨⟨statsTrace, rfl⟩,
   (C9_userAmount_matches_userNotes (run initState statsTrace)
     ⟨statsTrace, rfl⟩).1⟩

/-- C10.  Confirming amount 0 on the withdrawal screen (with
`balance + overdraftLimit ≥ 0`) clears the amount buffer and signals
`Withdrawn: 0`, but `withdraw`'s internal `amount_to_withdraw > 0` guard
makes the call a no-op: balance, inventory, `userAmount` and `userNotes`
are all unchanged. -/
theorem C10_zero_withdrawal_noop (s : ATMState) (r : Option Int)
    (hscreen : s.loginScreen = false)
    (hparse : jsParseInt s.toWithdraw = some 0)
    (hbal : (0 : Int) ≤ trueBalance s) :
    attemptUserInput r s =
      ({ s with toWithdraw := "", messageTimerOn := true }, .withdrawn 0) ∧
    (attemptUserInput r s).1.balance = s.balance ∧
    (attemptUserInput r s).1.availableNotes = s.availableNotes ∧
    (attemptUserInput r s).1.userAmount = s.userAmount ∧
    (attemptUserInput r s).1.userNotes = s.userNotes := by
  have h := attemptUserInput_withdraw s r 0 hscreen hparse hbal (by norm_num)
    (Nat.zero_le _)
  rw [h, withdraw_zero]
  exact ⟨rfl, rfl, rfl, rfl, rfl⟩

/-- C10, witnessed at a logged-in state with buffer `"0"`. -/
theorem C10_witness :
    zeroBufferState.loginScreen = false ∧
    jsParseInt zeroBufferState.toWithdraw = some 0 ∧
    (0 : Int) ≤ trueBalance zeroBufferState ∧
    (attemptUserInput none zeroBufferState =
        ({ zeroBufferState with toWithdraw := "", messageTimerOn := true },
         .withdrawn 0) ∧
      (attemptUserInput none zeroBufferState).1.balance =
        zeroBufferState.balance ∧
      (attemptUserInput none zeroBufferState).1.availableNotes =
        zeroBufferState.availableNotes ∧
      (attemptUserInput none zeroBufferState).1.userAmount =
        zeroBufferState.userAmount ∧
      (attemptUserInput none zeroBufferState).1.userNotes =
        zeroBufferState.userNotes) :=
  ⟨rfl, by decide, by decide,
   C10_zero_withdrawal_noop zeroBufferState none rfl (by decide) (by decide)⟩
